import Mathlib

/-!
Shallow embedding of `gpio-fan` (`src/main.rs`).

The program keeps rolling averages of CPU utilisation and CPU temperature
(`Measurement`), refreshes them each tick from system metrics (`Usage`),
and decides a fan state from them (`FanControl`).  `f32` values are
embedded as exact rationals `ℚ`; the system metrics read by
`sysinfo` (per-CPU usage, component label / temperature / max) are passed
explicitly as a `SysSnapshot` argument to the tick functions.
-/

/-- `Vec::drain(a..b)`: removes the index range `[a, b)` from the list and
keeps the rest.  (`drain(0..0)` therefore removes nothing.) -/
def drainRange (l : List ℚ) (a b : Nat) : List ℚ :=
  l.take a ++ l.drop b

/-- `struct Measurement { measures: Vec<f32>, avg: f32, max: usize }`. -/
structure Measurement where
  measures : List ℚ
  avg : ℚ
  max : Nat
deriving Repr, DecidableEq

/-- `Measurement::new(max)`: empty sample vector, average `0`. -/
def Measurement.new (mx : Nat) : Measurement :=
  { measures := [], avg := 0, max := mx }

/-- `Measurement::update`: if `measures.len() > max` it calls
`measures.drain(0..0)` (a no-op range, kept faithfully), pushes the new
sample, recomputes `avg` as the sum of all retained samples divided by
their number, stores it and returns it. -/
def Measurement.update (m : Measurement) (x : ℚ) : Measurement × ℚ :=
  let ms0 := if m.measures.length > m.max then drainRange m.measures 0 0 else m.measures
  let ms := ms0 ++ [x]
  let a := ms.sum / (ms.length : ℚ)
  ({ measures := ms, avg := a, max := m.max }, a)

/-- `Measurement::interval`. -/
def Measurement.interval (m : Measurement) : Nat := m.max

/-- `Measurement::measurement`: the stored average. -/
def Measurement.measurement (m : Measurement) : ℚ := m.avg

/-- Arithmetic mean of a list of rationals. -/
def listMean (l : List ℚ) : ℚ := l.sum / (l.length : ℚ)

/-- `str::starts_with(p)` on character sequences: `p` is a leading run of `s`. -/
def startsWithChars (s p : List Char) : Bool :=
  match s, p with
  | _, [] => true
  | [], _ :: _ => false
  | c :: s, d :: p => c == d && startsWithChars s p

/-- One temperature component as exposed by `sysinfo`:
`label()`, `temperature()` and `max()` (the maximum safe temperature).
Labels are embedded as character sequences. -/
structure Component where
  label : List Char
  temperature : ℚ
  max : ℚ
deriving Repr, DecidableEq

/-- The system metrics visible on one tick: `cpu_usage()` of each CPU and
the list of components. -/
structure SysSnapshot where
  cpus : List ℚ
  components : List Component
deriving Repr, DecidableEq

/-- `const CPU_COMPONENT_LABEL: &str = "coretemp"`. -/
def CPU_COMPONENT_LABEL : List Char := ['c', 'o', 'r', 'e', 't', 'e', 'm', 'p']

/-- `struct Usage`: the two banks of rolling averages and the recorded
ceiling `max_temp` (the `System` handle is replaced by the explicit
`SysSnapshot` argument of `Usage.update`). -/
structure Usage where
  cpu : List Measurement
  temperature : List Measurement
  max_temp : Option ℚ
deriving Repr, DecidableEq

/-- `Usage::new`: one `Measurement` per requested interval, `max_temp = None`. -/
def Usage.new (cpu_intervals_sec temp_intervals_sec : List Nat) : Usage :=
  { cpu := cpu_intervals_sec.map Measurement.new
    temperature := temp_intervals_sec.map Measurement.new
    max_temp := none }

/-- The `max_cpu_usage` fold of `Usage::update`: maximum of the per-CPU
usages, `none` when there are no CPUs. -/
def maxCpuUsage (vals : List ℚ) : Option ℚ :=
  vals.foldl
    (fun acc x =>
      match acc with
      | some m => if x > m then some x else some m
      | none => some x)
    none

/-- The component loop of `Usage::update`: over components whose label
starts with `CPU_COMPONENT_LABEL`, accumulates the maximum `temperature()`
(first result) and the minimum `max()` seeded with the previous
`max_temp` (second result). -/
def componentFold (seed : Option ℚ) (cs : List Component) : Option ℚ × Option ℚ :=
  cs.foldl
    (fun p c =>
      if startsWithChars c.label CPU_COMPONENT_LABEL then
        (match p.1 with
         | none => some c.temperature
         | some m => if c.temperature > m then some c.temperature else some m,
         match p.2 with
         | none => some c.max
         | some m => if c.max < m then some c.max else some m)
      else p)
    (none, seed)

/-- `Usage::update`: computes `max_cpu_usage` and the component fold, then
feeds `max_cpu_usage` to every CPU measurement (when present) and
`max_cpu_temps` to every temperature measurement (when present).
As in the source, the computed `min_cpu_max` (second component of the
fold) is never written back: `self.max_temp` is left unchanged. -/
def Usage.update (u : Usage) (s : SysSnapshot) : Usage :=
  let max_cpu_usage := maxCpuUsage s.cpus
  let max_cpu_temps := (componentFold u.max_temp s.components).1
  let cpu :=
    match max_cpu_usage with
    | some v => u.cpu.map (fun m => (m.update v).1)
    | none => u.cpu
  let temperature :=
    match max_cpu_temps with
    | some v => u.temperature.map (fun m => (m.update v).1)
    | none => u.temperature
  { cpu := cpu, temperature := temperature, max_temp := u.max_temp }

/-- `Usage::cpu_max_temp`: returns the stored `max_temp`. -/
def Usage.cpu_max_temp (u : Usage) : Option ℚ := u.max_temp

/-- `struct FanControl` (the `Chip` and `Line` handles carry no data the
decision logic reads and are omitted; the GPIO write trace of a loop
iteration is modelled by `main_step`). -/
structure FanControl where
  usage : Usage
  fan_on : Option Bool
  max_fan_on_temp : ℚ
  max_fan_on_cpu : ℚ
deriving Repr, DecidableEq

/-- `FanControl::update_fan`: stores `Some(state)` in `fan_on` and
returns it.  It performs no GPIO access. -/
def FanControl.update_fan (fc : FanControl) (state : Bool) : FanControl × Option Bool :=
  ({ fc with fan_on := some state }, some state)

/-- The `max_temp` local of `FanControl::update`: `max_fan_on_temp`,
lowered to `usage.cpu_max_temp()` when that is present and smaller. -/
def FanControl.effective_max (fc : FanControl) (u : Usage) : ℚ :=
  match u.cpu_max_temp with
  | some usage_max => if usage_max < fc.max_fan_on_temp then usage_max else fc.max_fan_on_temp
  | none => fc.max_fan_on_temp

/-- `FanControl::update`: refreshes `usage`, then
(1) any temperature average above the effective maximum forces `On`;
(2) any CPU average above `max_fan_on_cpu` forces `On`;
(3) otherwise, with a previously set `fan_on`, turns the fan on exactly
when the first temperature average exceeds `max_fan_on_temp / 2` and the
middle (`len / 2`) temperature average; with `fan_on` still `None`,
turns it off. -/
def FanControl.update (fc : FanControl) (s : SysSnapshot) : FanControl × Option Bool :=
  let u := fc.usage.update s
  let fc1 : FanControl := { fc with usage := u }
  let max_temp := fc1.effective_max u
  if u.temperature.any (fun t => decide (t.measurement > max_temp)) then
    fc1.update_fan true
  else if u.cpu.any (fun c => decide (c.measurement > fc1.max_fan_on_cpu)) then
    fc1.update_fan true
  else
    match fc1.fan_on with
    | some _ =>
      let first := u.temperature.head?.map Measurement.measurement
      let middle := (u.temperature.get? (u.temperature.length / 2)).map Measurement.measurement
      let turn_on :=
        match first with
        | some f =>
          decide (f > fc1.max_fan_on_temp / 2) &&
            (match middle with
             | some m => decide (f > m)
             | none => false)
        | none => false
      fc1.update_fan turn_on
    | none => fc1.update_fan false

/-- `FanControl::fan_on`. -/
def FanControl.fanOnState (fc : FanControl) : Option Bool := fc.fan_on

/-- The interval configuration of `main`. -/
def cpu_intervals : List Nat := [3, 10, 60]

/-- The interval configuration of `main`. -/
def temp_intervals : List Nat := [5, 30, 60]

/-- One iteration of the `main` loop: `fan_control.update()`, then
`verbose` (printing only) and a sleep.  The second component is the
sequence of boolean values written to the GPIO `fan_output` line during
the iteration; the source never calls any line-driving operation
(`fan_output` is obtained in `FanControl::new` and then only stored), so
the trace is empty. -/
def main_step (fc : FanControl) (s : SysSnapshot) : FanControl × List Bool :=
  ((fc.update s).1, [])

/-! ### Helper lemmas -/

/-- `Measurement::update` appends the new sample and removes nothing:
`drain(0..0)` drains the empty range, so no eviction ever happens. -/
theorem Measurement.update_measures (m : Measurement) (x : ℚ) :
    ((m.update x).1).measures = m.measures ++ [x] := by
  unfold Measurement.update drainRange
  by_cases h : m.measures.length > m.max <;> simp [h]

/-- Every branch of `FanControl::update` ends in `update_fan`, which
returns `Some`. -/
theorem FanControl.update_returns_set (fc : FanControl) (s : SysSnapshot) :
    ∃ b, (fc.update s).2 = some b := by
  unfold FanControl.update FanControl.update_fan
  dsimp only
  split
  · exact ⟨true, rfl⟩
  · split
    · exact ⟨true, rfl⟩
    · split
      · exact ⟨_, rfl⟩
      · exact ⟨false, rfl⟩

/-! ### C1 -/

/-- C1: the claim says the sample buffer of a `Measurement` built with
capacity `c` never exceeds `c` elements and that after each update the
average is the mean of the last `min(count, c)` samples.  The code
violates it: `drain(0..0)` removes the empty index range, so every update
appends and nothing is ever evicted (first conjunct).  Concretely, with
capacity `1` and the samples `0` then `2`, the buffer holds `2 > 1`
elements and the stored average is `1`, while the mean of the last
`min(2, 1) = 1` samples is `2 ≠ 1`. -/
theorem C1_eviction_never_happens :
    (∀ (m : Measurement) (x : ℚ), ((m.update x).1).measures = m.measures ++ [x]) ∧
    ((((Measurement.new 1).update 0).1.update 2).1).measures.length = 2 ∧
    ((((Measurement.new 1).update 0).1.update 2).1).avg = 1 ∧
    listMean [2] = 2 ∧ (1 : ℚ) ≠ 2 := by
  refine ⟨Measurement.update_measures, by decide, ?_, ?_, by norm_num⟩
  · norm_num [Measurement.update, Measurement.new, drainRange]
  · norm_num [listMean]

/-! ### C8 -/

/-- C8: the claim says feeding a constant `v` at least `capacity` times
drives the average to exactly `v` from any state.  The code violates it:
eviction never happens, so stale samples keep weighing in.  With capacity
`2`, starting from the (reachable) state after one sample `10`, feeding
`4` twice — exactly `capacity` times — returns average `6 ≠ 4`. -/
theorem C8_constant_fill_fails :
    (((((Measurement.new 2).update 10).1.update 4).1.update 4).2 = 6 ∧ (6 : ℚ) ≠ 4) := by
  constructor
  · norm_num [Measurement.update, Measurement.new, drainRange]
  · norm_num

/-! ### C9 -/

/-- C9: `Measurement::update` returns exactly the average it stores, and
that stored average is the arithmetic mean of the samples retained in the
window after the call.  The function is total — no failure mode. -/
theorem C9_update_returns_mean (m : Measurement) (x : ℚ) :
    (m.update x).2 = listMean ((m.update x).1).measures ∧
    ((m.update x).1).avg = (m.update x).2 :=
  ⟨rfl, rfl⟩

/-! ### C10 -/

/-- C10: the new sample is pushed before the average is computed, so after
every update the buffer is non-empty (its last element is the new sample)
and the divisor `measures.len()` of the average computation is strictly
positive. -/
theorem C10_divisor_positive (m : Measurement) (x : ℚ) :
    0 < ((m.update x).1).measures.length ∧
    ((m.update x).1).measures.getLast? = some x ∧
    (0 : ℚ) < (((m.update x).1).measures.length : ℚ) := by
  rw [Measurement.update_measures]
  refine ⟨by simp, List.getLast?_concat _, ?_⟩
  have : 0 < (m.measures ++ [x]).length := by simp
  exact_mod_cast this

/-! ### C4 -/

/-- C4: the claim says the minimum "maximum safe temperature" of the
matching sensors is persisted as `max_temp` (the thermal ceiling).  The
code violates it: `Usage::update` computes `min_cpu_max` but never writes
it back, so `max_temp` is unchanged by every update (first conjunct) and
in particular, after a tick with one matching `coretemp` sensor whose
maximum safe temperature is `80`, `cpu_max_temp()` is still `None` even
though the discarded fold result is `Some 80` (remaining conjuncts). -/
theorem C4_ceiling_never_persisted :
    (∀ (u : Usage) (s : SysSnapshot), (u.update s).max_temp = u.max_temp) ∧
    ((Usage.new [] []).update ⟨[], [⟨CPU_COMPONENT_LABEL, 40, 80⟩]⟩).cpu_max_temp = none ∧
    (componentFold none [⟨CPU_COMPONENT_LABEL, 40, 80⟩]).2 = some 80 := by
  exact ⟨fun u s => rfl, rfl, by decide⟩

/-! ### C5 -/

/-- C5: the claim says the digital output is driven exactly once per loop
iteration with the decided fan state.  The code violates it: the decided
state is only stored in the `fan_on` field by `update_fan`, and no
operation driving the `fan_output` line exists anywhere in the program,
so the per-iteration GPIO write trace is empty (length `0`, never `1`). -/
theorem C5_no_gpio_write :
    ∀ (fc : FanControl) (s : SysSnapshot),
      (main_step fc s).2 = [] ∧ ((main_step fc s).2).length ≠ 1 :=
  fun fc s => ⟨rfl, by simp [main_step]⟩

/-! ### more helpers -/

/-- When no component label matches, the component fold of `Usage::update`
finds no temperature and keeps the seed ceiling. -/
theorem componentFold_no_match (seed : Option ℚ) (cs : List Component)
    (h : ∀ c ∈ cs, startsWithChars c.label CPU_COMPONENT_LABEL = false) :
    componentFold seed cs = (none, seed) := by
  induction cs with
  | nil => rfl
  | cons c cs ih =>
    have hc := h c (List.mem_cons_self c cs)
    have hrest := fun x hx => h x (List.mem_cons_of_mem c hx)
    show List.foldl _ _ (c :: cs) = _
    rw [List.foldl_cons]
    simp only [hc, Bool.false_eq_true, if_false]
    exact ih hrest

/-! ### C7 -/

/-- C7: frame effect of `Usage::update`.  When no component's label starts
with `CPU_COMPONENT_LABEL`, the whole temperature bank is unchanged
(samples and averages alike); when no per-CPU utilisation is available,
the whole CPU bank is unchanged. -/
theorem C7_no_data_no_change (u : Usage) (s : SysSnapshot) :
    ((∀ c ∈ s.components, startsWithChars c.label CPU_COMPONENT_LABEL = false) →
      (u.update s).temperature = u.temperature) ∧
    (s.cpus = [] → (u.update s).cpu = u.cpu) := by
  constructor
  · intro h
    show (let max_cpu_usage := maxCpuUsage s.cpus; _) = u.temperature
    simp only [Usage.update, componentFold_no_match u.max_temp s.components h]
  · intro h
    simp only [Usage.update, h]
    rfl

/-- When neither hard trip fires, `FanControl::update` lands in the else
branch: with `fan_on` set it applies the first/middle comparison, with
`fan_on` unset it returns `Some(false)`. -/
theorem FanControl.update_no_trip (fc : FanControl) (s : SysSnapshot)
    (htrip : ∀ t ∈ (fc.usage.update s).temperature,
        t.measurement ≤ fc.effective_max (fc.usage.update s))
    (hcpu : ∀ c ∈ (fc.usage.update s).cpu, c.measurement ≤ fc.max_fan_on_cpu) :
    (fc.update s).2 = some
      (match fc.fan_on with
       | some _ =>
         match (fc.usage.update s).temperature.head?.map Measurement.measurement with
         | some f =>
           decide (f > fc.max_fan_on_temp / 2) &&
             (match ((fc.usage.update s).temperature.get?
                 ((fc.usage.update s).temperature.length / 2)).map Measurement.measurement with
              | some m => decide (f > m)
              | none => false)
         | none => false
       | none => false) := by
  unfold FanControl.update FanControl.update_fan
  dsimp only
  split
  · next hcond =>
    exfalso
    rcases List.any_eq_true.mp hcond with ⟨t, ht, hdec⟩
    exact absurd (of_decide_eq_true hdec) (not_lt.mpr (htrip t ht))
  · split
    · next hcond2 =>
      exfalso
      rcases List.any_eq_true.mp hcond2 with ⟨c, hcmem, hdec⟩
      exact absurd (of_decide_eq_true hdec) (not_lt.mpr (hcpu c hcmem))
    · cases hf : fc.fan_on with
      | none => rfl
      | some b => rfl

/-! ### C2 -/

/-- C2: on a tick with no hard trip (all temperature averages at or below
the effective maximum, all CPU averages at or below `max_fan_on_cpu`) and
a fan state that is already set, the new state is `On` exactly when the
first temperature average — the shortest window in `main`'s ascending
interval configuration `[5, 30, 60]`, as the leading conjunct records —
is strictly above `max_fan_on_temp / 2` and strictly above the
middle-position (`len / 2`) temperature average; in every other case the
new state is `Off`. -/
theorem C2_hysteresis (fc : FanControl) (s : SysSnapshot) (b : Bool) (f md : ℚ)
    (hfan : fc.fan_on = some b)
    (htrip : ∀ t ∈ (fc.usage.update s).temperature,
        t.measurement ≤ fc.effective_max (fc.usage.update s))
    (hcpu : ∀ c ∈ (fc.usage.update s).cpu, c.measurement ≤ fc.max_fan_on_cpu)
    (hfirst : (fc.usage.update s).temperature.head?.map Measurement.measurement = some f)
    (hmid : ((fc.usage.update s).temperature.get?
        ((fc.usage.update s).temperature.length / 2)).map Measurement.measurement = some md) :
    (temp_intervals = [5, 30, 60] ∧ ∀ n ∈ temp_intervals, 5 ≤ n) ∧
    (fc.update s).2 = some (decide (f > fc.max_fan_on_temp / 2 ∧ f > md)) := by
  refine ⟨by decide, ?_⟩
  rw [FanControl.update_no_trip fc s htrip hcpu, hfan, hfirst, hmid]
  dsimp only
  rw [Bool.decide_and]

/-- Witness for C2, instancing the spec's hysteresis-release example:
state `On`, first average `20`, `max_fan_on_temp = 31`, middle average
`25`; since `20 > 15.5` but not `20 > 25`, the tick yields `Off`. -/
theorem C2_hysteresis_witness :
    (temp_intervals = [5, 30, 60] ∧ ∀ n ∈ temp_intervals, 5 ≤ n) ∧
    (FanControl.update
        ⟨⟨[], [⟨[20], 20, 5⟩, ⟨[25], 25, 30⟩, ⟨[25], 25, 60⟩], none⟩, some true, 31, 10⟩
        ⟨[], []⟩).2 =
      some (decide ((20 : ℚ) > 31 / 2 ∧ (20 : ℚ) > 25)) :=
  C2_hysteresis _ _ true 20 25 rfl (by decide) (by decide) rfl rfl

/-! ### C3 -/

/-- C3: the effective maximum temperature computed at the head of each
tick is `min(max_fan_on_temp, ceiling)` when a ceiling is recorded and
`max_fan_on_temp` otherwise (first conjunct), and whenever any
temperature average exceeds it the tick returns `On`, whatever the CPU
averages and the prior fan state are (second conjunct, with both left
arbitrary in `fc`). -/
theorem C3_hard_trip (fc : FanControl) (s : SysSnapshot)
    (h : ∃ t ∈ (fc.usage.update s).temperature,
        t.measurement > fc.effective_max (fc.usage.update s)) :
    (∀ u : Usage, fc.effective_max u =
        u.max_temp.elim fc.max_fan_on_temp (fun c => min fc.max_fan_on_temp c)) ∧
    (fc.update s).2 = some true := by
  constructor
  · intro u
    unfold FanControl.effective_max Usage.cpu_max_temp
    cases hm : u.max_temp with
    | none => rfl
    | some c =>
      dsimp only [Option.elim]
      by_cases hlt : c < fc.max_fan_on_temp
      · rw [if_pos hlt, min_eq_right hlt.le]
      · rw [if_neg hlt, min_eq_left (not_lt.mp hlt)]
  · unfold FanControl.update FanControl.update_fan
    dsimp only
    split
    · rfl
    · next hcond =>
      exfalso
      rcases h with ⟨t, ht, hgt⟩
      exact hcond (List.any_eq_true.mpr ⟨t, ht, decide_eq_true hgt⟩)

/-- Witness for C3: recorded ceiling `25` below `max_fan_on_temp = 31`,
one temperature average `30` above the effective maximum `25`, with CPU
bank empty (usage 0) and fan state still unset — the tick returns `On`. -/
theorem C3_hard_trip_witness :
    (FanControl.update ⟨⟨[], [⟨[30], 30, 5⟩], some 25⟩, none, 31, 10⟩ ⟨[], []⟩).2
      = some true :=
  (C3_hard_trip _ _ (by decide)).2

/-! ### C6 -/

/-- C6: with no hard trip fired and `fan_on` still `None` (the very first
tick), the tick returns `Off`; moreover every call to the tick update
returns `Some` state — never `Unknown`. -/
theorem C6_first_tick_off (fc : FanControl) (s : SysSnapshot)
    (htrip : ∀ t ∈ (fc.usage.update s).temperature,
        t.measurement ≤ fc.effective_max (fc.usage.update s))
    (hcpu : ∀ c ∈ (fc.usage.update s).cpu, c.measurement ≤ fc.max_fan_on_cpu)
    (hfan : fc.fan_on = none) :
    (fc.update s).2 = some false ∧
    ∀ (g : FanControl) (r : SysSnapshot), ∃ b, (g.update r).2 = some b := by
  refine ⟨?_, fun g r => FanControl.update_returns_set g r⟩
  rw [FanControl.update_no_trip fc s htrip hcpu, hfan]

/-- Witness for C6: the configuration of `main` on its first tick with an
empty snapshot (every average `0`, all below the thresholds) yields
`Off`. -/
theorem C6_first_tick_off_witness :
    (FanControl.update ⟨Usage.new cpu_intervals temp_intervals, none, 31, 10⟩ ⟨[], []⟩).2
      = some false :=
  (C6_first_tick_off _ _ (by decide) (by decide) rfl).1

/-! ### C7 witness -/

/-- Witness for C7: a snapshot whose one component label does not start
with `coretemp` and with no CPUs leaves both banks untouched. -/
theorem C7_no_data_no_change_witness :
    (Usage.update ⟨[⟨[7], 7, 3⟩], [⟨[22], 22, 5⟩], none⟩
        ⟨[], [⟨['a', 'c', 'p', 'i', 't', 'z'], 50, 100⟩]⟩).temperature = [⟨[22], 22, 5⟩] ∧
    (Usage.update ⟨[⟨[7], 7, 3⟩], [⟨[22], 22, 5⟩], none⟩
        ⟨[], [⟨['a', 'c', 'p', 'i', 't', 'z'], 50, 100⟩]⟩).cpu = [⟨[7], 7, 3⟩] :=
  ⟨(C7_no_data_no_change _ _).1 (by decide), (C7_no_data_no_change _ _).2 rfl⟩
